import Mathlib

/-!
Shallow embedding of `src/email_sender.py` (class `EmailSender` and `main`).

The program sends templated HTML emails over SMTP.  The model below translates,
from the source:
* the recipient data model (a recipient entry is either a bare email string or
  a JSON object with optional `email` / `certificate_url` fields),
* the bulk-send loops of `EmailSender.send_bulk_meet_invites` (lines 283-310)
  and of `main` menu choice "2" (lines 379-411),
* the operator-gated test phase preceding both loops (lines 257-281, 347-377),
* the logo cache `EmailSender._get_logo_data` (lines 40-57),
* the HTML template `EmailSender._create_html_template` (lines 59-174),
* the transport / session handling of `EmailSender.send_email` (lines 176-235).

External effects (console input, SMTP network, HTTP fetch, clock, RNG) are
modelled as explicit oracle parameters; Python dictionaries keyed by strings
are modelled as insertion-ordered association lists.
-/

namespace EmailSenderModel

/-- A recipient entry of `config['recipients']` (spec §3 `RecipientEntry`):
either a bare email string, or a JSON object whose `email` and
`certificate_url` keys may each be absent.  Source: the
`isinstance(details, dict)` dispatch at lines 292-293 and 389-394. -/
inductive RecipientDetails where
  | direct (email : String)
  | detailed (email : Option String) (certificate_url : Option String)
deriving DecidableEq, Repr

/-- `details.get('email') if isinstance(details, dict) else details`
(lines 293 and 389-393): the raw email value before the truthiness test. -/
def entryEmail : RecipientDetails → Option String
  | .direct e => some e
  | .detailed e _ => e

/-- The email actually used for dispatch: `if not email: continue`
(lines 294, 396) skips Python-falsy values, i.e. a missing key or `""`. -/
def resolvedEmail (d : RecipientDetails) : Option String :=
  match entryEmail d with
  | none => none
  | some e => if e = "" then none else some e

/-- `details.get('certificate_url', '#')` for dict entries and `'#'` for bare
strings (lines 390-394); also used for the test-phase sample at 357-359. -/
def entryCertUrl : RecipientDetails → String
  | .direct _ => "#"
  | .detailed _ c => c.getD "#"

/-- Whether the normalized record carries a `certificate_url` field. -/
def hasCertUrl : RecipientDetails → Bool
  | .direct _ => false
  | .detailed _ c => c.isSome

/-- The meeting fields collected at lines 245-255 (spec §3 `MeetingInfo`). -/
structure MeetInfo where
  topic : String
  date : String
  time : String
  link : String
deriving DecidableEq, Repr

/-- One invocation of the dispatcher `EmailSender.send_email`, recorded with
the arguments of the call (lines 176-180).  `usesSharedServer` is whether the
`server=` argument was passed (bulk loop) or omitted (fresh connection). -/
structure SendCall where
  recipient_email : String
  subject : String
  recipient_name : String
  mode : String
  certificate_url : Option String
  meet_info : Option MeetInfo
  usesSharedServer : Bool
deriving DecidableEq, Repr

/-- Insertion-ordered Python-dict assignment `results[email] = success`
(lines 306, 409): overwrite in place if the key exists, else append. -/
def dictInsert (k : String) (v : Bool) : List (String × Bool) → List (String × Bool)
  | [] => [(k, v)]
  | (k', v') :: rest => if k' = k then (k, v) :: rest else (k', v') :: dictInsert k v rest

/-- Python-dict read `results.get(email)`. -/
def dictLookup (k : String) : List (String × Bool) → Option Bool
  | [] => none
  | (k', v') :: rest => if k' = k then some v' else dictLookup k rest

/-- Observable state accumulated by one bulk loop: the dispatcher calls made,
the `"Missing email for {name}"` log lines, the `results` mapping, and the
number of sends performed so far (used to index the send-outcome oracle). -/
structure BulkState where
  calls : List SendCall
  missingLogs : List String
  results : List (String × Bool)
  sendCount : Nat
deriving DecidableEq, Repr

def initBulkState : BulkState := ⟨[], [], [], 0⟩

/-- One iteration of a bulk loop body (lines 292-306 / 388-409), abstracted
over `mk`, the mode-specific construction of the dispatcher call, and `f`,
the oracle giving the outcome of the i-th `send_email` transmission.
An entry whose email is Python-falsy is logged and skipped (`continue`);
otherwise `send_email` is invoked and `results[email] = success` executed. -/
def bulkLoopStep (mk : String → String → RecipientDetails → SendCall) (f : Nat → Bool)
    (st : BulkState) (p : String × RecipientDetails) : BulkState :=
  match resolvedEmail p.2 with
  | none => { st with missingLogs := st.missingLogs ++ [p.1] }
  | some email =>
    { calls := st.calls ++ [mk p.1 email p.2],
      missingLogs := st.missingLogs,
      results := dictInsert email (f st.sendCount) st.results,
      sendCount := st.sendCount + 1 }

/-- The dispatcher call made by the bulk-certificate loop (lines 400-408):
`mode="certificate"`, `certificate_url=cert_url`, shared server. -/
def certCall (subject : String) (name email : String) (d : RecipientDetails) : SendCall :=
  { recipient_email := email, subject := subject, recipient_name := name,
    mode := "certificate", certificate_url := some (entryCertUrl d),
    meet_info := none, usesSharedServer := true }

/-- The dispatcher call made by the bulk-meet loop (lines 297-305):
`mode="meet"`, `meet_info=meet_info`, shared server. -/
def meetCall (subject : String) (mi : MeetInfo) (name email : String)
    (_ : RecipientDetails) : SendCall :=
  { recipient_email := email, subject := subject, recipient_name := name,
    mode := "meet", certificate_url := none, meet_info := some mi,
    usesSharedServer := true }

/-- Number of directory entries with a non-empty resolvable email. -/
def countResolvable (l : List (String × RecipientDetails)) : Nat :=
  (l.filterMap fun p => resolvedEmail p.2).length

/-- The bulk phase of `main` choice "2" (lines 379-411): opening the shared
connection may fail (`connOk = false`), in which case the `except` clause at
410-411 leaves `results` empty and no recipient is processed; otherwise the
loop runs over the whole directory in insertion order. -/
def bulkCertificate (subject : String) (connOk : Bool) (f : Nat → Bool)
    (recips : List (String × RecipientDetails)) : BulkState :=
  if connOk then recips.foldl (bulkLoopStep (certCall subject) f) initBulkState
  else initBulkState

/-- The bulk phase of `send_bulk_meet_invites` (lines 283-310), same shape. -/
def bulkMeet (subject : String) (mi : MeetInfo) (connOk : Bool) (f : Nat → Bool)
    (recips : List (String × RecipientDetails)) : BulkState :=
  if connOk then recips.foldl (bulkLoopStep (meetCall subject mi) f) initBulkState
  else initBulkState

/-- Python `str.strip()` (no argument): drop leading and trailing whitespace
characters. -/
def pyStrip (s : String) : String :=
  String.mk (((s.data.dropWhile Char.isWhitespace).reverse.dropWhile
    Char.isWhitespace).reverse)

/-- Python `str.lower()` (ASCII case folding, which is all the prompts use). -/
def pyLower (s : String) : String :=
  String.mk (s.data.map Char.toLower)

/-- The operator's raw console answers for the test phase: the `y/n` answer to
"Send a test email first?", the test address, and the answer to
"Proceed with bulk sending?" (lines 259-276 / 349-372). -/
structure OperatorAnswers where
  sendTestAnswer : String
  testEmailRaw : String
  proceedAnswer : String
deriving DecidableEq, Repr

/-- Outcome of one whole bulk flow (test phase then bulk phase).
`crashed` models the uncaught `StopIteration` of `next(iter(...))` on an
empty recipient directory (lines 263 / 353); `testFailed` is the
"Test email failed. Aborting." return; `declined` is the
"Bulk sending aborted." return; `ran` carries the test call, if one was
made, and the bulk-phase state. -/
inductive FlowOutcome where
  | crashed
  | testFailed (testCall : SendCall)
  | declined (testCall : SendCall)
  | ran (testCall : Option SendCall) (st : BulkState)
deriving DecidableEq, Repr

/-- The result mapping produced by a flow: `send_bulk_meet_invites` returns
`{}` on both aborts (lines 278, 281), and `main` choice "2" returns before
`results` is ever created (lines 374, 377). -/
def flowResults : FlowOutcome → List (String × Bool)
  | .ran _ st => st.results
  | _ => []

/-- The dispatcher calls made during the bulk phase of a flow (the test-phase
call, when present, is recorded separately in the outcome). -/
def flowBulkCalls : FlowOutcome → List SendCall
  | .ran _ st => st.calls
  | _ => []

/-- The test-phase dispatcher call of the meet flow (lines 266-272): sent to
the operator-supplied address with the first directory key as sample name,
over a fresh one-off connection. -/
def meetTestCall (subject : String) (mi : MeetInfo) (testEmail firstName : String) : SendCall :=
  { recipient_email := testEmail, subject := subject, recipient_name := firstName,
    mode := "meet", certificate_url := none, meet_info := some mi,
    usesSharedServer := false }

/-- The test-phase dispatcher call of the certificate flow (lines 352-368):
sample certificate URL taken from the first directory entry via
`get('certificate_url', '#')`, or `'#'` for a bare-string entry. -/
def certTestCall (subject testEmail firstName : String)
    (firstDetails : RecipientDetails) : SendCall :=
  { recipient_email := testEmail, subject := subject, recipient_name := firstName,
    mode := "certificate", certificate_url := some (entryCertUrl firstDetails),
    meet_info := none, usesSharedServer := false }

/-- `EmailSender.send_bulk_meet_invites` (lines 237-310) with the interactive
prompts, SMTP transport and send outcomes as explicit parameters.  The test
gate is `input(...).strip().lower() == 'y'` (line 259); an empty stripped test
address skips the whole test block (line 261); a failed test send aborts
(line 281); after a successful test, any proceed answer other than `y` aborts
(lines 276-278); otherwise the bulk phase runs over the full directory. -/
def sendBulkMeetInvites (subject : String) (mi : MeetInfo) (ans : OperatorAnswers)
    (testOk connOk : Bool) (f : Nat → Bool)
    (recips : List (String × RecipientDetails)) : FlowOutcome :=
  if pyLower (pyStrip ans.sendTestAnswer) = "y" then
    if pyStrip ans.testEmailRaw ≠ "" then
      match recips.head? with
      | none => .crashed
      | some (firstName, _) =>
        if testOk then
          if pyLower (pyStrip ans.proceedAnswer) ≠ "y" then
            .declined (meetTestCall subject mi (pyStrip ans.testEmailRaw) firstName)
          else
            .ran (some (meetTestCall subject mi (pyStrip ans.testEmailRaw) firstName))
              (bulkMeet subject mi connOk f recips)
        else .testFailed (meetTestCall subject mi (pyStrip ans.testEmailRaw) firstName)
    else .ran none (bulkMeet subject mi connOk f recips)
  else .ran none (bulkMeet subject mi connOk f recips)

/-- The bulk-certificate branch of `main` (choice "2", lines 337-414), same
test-phase shape as `send_bulk_meet_invites` but in certificate mode. -/
def mainBulkCertificate (subject : String) (ans : OperatorAnswers)
    (testOk connOk : Bool) (f : Nat → Bool)
    (recips : List (String × RecipientDetails)) : FlowOutcome :=
  if pyLower (pyStrip ans.sendTestAnswer) = "y" then
    if pyStrip ans.testEmailRaw ≠ "" then
      match recips.head? with
      | none => .crashed
      | some (firstName, firstDetails) =>
        if testOk then
          if pyLower (pyStrip ans.proceedAnswer) ≠ "y" then
            .declined (certTestCall subject (pyStrip ans.testEmailRaw) firstName firstDetails)
          else
            .ran (some (certTestCall subject (pyStrip ans.testEmailRaw) firstName firstDetails))
              (bulkCertificate subject connOk f recips)
        else .testFailed (certTestCall subject (pyStrip ans.testEmailRaw) firstName firstDetails)
    else .ran none (bulkCertificate subject connOk f recips)
  else .ran none (bulkCertificate subject connOk f recips)

/-- Mutable logo cache of the `EmailSender` instance: `self._logo_data` and
`self._logo_msg_id`, both `None` at `__init__` (lines 25-26).  Logo bytes are
modelled as a list of byte values. -/
structure LogoState where
  logo_data : Option (List Nat)
  logo_msg_id : Option String
deriving DecidableEq, Repr

def initLogoState : LogoState := ⟨none, none⟩

/-- Python truthiness of `self._logo_data` as tested by
`if self._logo_data:` (line 42): `None` and the empty bytes object are
both falsy. -/
def bytesTruthy : Option (List Nat) → Bool
  | none => false
  | some bs => !bs.isEmpty

/-- One call to `EmailSender._get_logo_data` (lines 40-57).  `logo_url` is
`self.config.get("logo_url", "")`; `fetch k` is the body read by the k-th
`urllib.request.urlopen` attempt (`none` = the attempt raised); `msgId k` is
the k-th `make_msgid(domain="icpepse")` value.  Returns the pair the method
returns, the updated cache, and the updated attempt count.  On a cache hit
(truthy `_logo_data`) nothing is fetched; on a falsy or absent `logo_url`
the method returns `(None, None)` without fetching; a raised fetch is
caught, leaves the cache unchanged and returns `(None, None)`. -/
def getLogoDataStep (logo_url : String) (fetch : Nat → Option (List Nat))
    (msgId : Nat → String) (st : LogoState) (attempts : Nat) :
    (Option (List Nat) × Option String) × LogoState × Nat :=
  if bytesTruthy st.logo_data then ((st.logo_data, st.logo_msg_id), st, attempts)
  else if logo_url = "" then ((none, none), st, attempts)
  else
    match fetch attempts with
    | some bs => ((some bs, some (msgId attempts)),
                  ⟨some bs, some (msgId attempts)⟩, attempts + 1)
    | none => ((none, none), st, attempts + 1)

/-- Cache state and fetch-attempt count after `n` successive calls to
`_get_logo_data` on one `EmailSender` instance. -/
def runLogoCalls (logo_url : String) (fetch : Nat → Option (List Nat))
    (msgId : Nat → String) : Nat → LogoState × Nat
  | 0 => (initLogoState, 0)
  | n + 1 =>
    let (st, a) := runLogoCalls logo_url fetch msgId n
    let (_, st', a') := getLogoDataStep logo_url fetch msgId st a
    (st', a')

/-- The `(logo_data, logo_msg_id)` pair returned by call number `n`
(0-indexed) in a sequence of `_get_logo_data` calls. -/
def logoCallOutput (logo_url : String) (fetch : Nat → Option (List Nat))
    (msgId : Nat → String) (n : Nat) : Option (List Nat) × Option String :=
  let (st, a) := runLogoCalls logo_url fetch msgId n
  (getLogoDataStep logo_url fetch msgId st a).1

/-- Number of `urlopen` fetch attempts performed by the first `n` calls. -/
def logoAttempts (logo_url : String) (fetch : Nat → Option (List Nat))
    (msgId : Nat → String) (n : Nat) : Nat :=
  (runLogoCalls logo_url fetch msgId n).2

/-- Python `msg_id.strip("<>")` (line 204): drop leading and trailing `<`/`>`
characters. -/
def stripAngleBrackets (s : String) : String :=
  let isAngle : Char → Bool := fun c => c == '<' || c == '>'
  String.mk (((s.data.dropWhile isAngle).reverse.dropWhile isAngle).reverse)

/-- The `logo_cid_value` computed by `send_email` (lines 196-204): an inline
image part is attached, and a content id passed to the template, only when
both `logo_data` and `logo_msg_id` are Python-truthy; otherwise the template
receives `logo_cid = None` and degrades to the text-only header. -/
def logoCidValue : Option (List Nat) × Option String → Option String
  | (some bs, some mid) =>
    if bs.isEmpty || mid = "" then none else some (stripAngleBrackets mid)
  | _ => none

/-- Fixed submission host `self.smtp_server` (line 23). -/
def smtp_server : String := "smtp.gmail.com"

/-- Fixed submission port `self.smtp_port` (line 24). -/
def smtp_port : Nat := 587

/-- Session-visible transport actions performed by `send_email`:
`connect` is a successfully established connection (the
`smtplib.SMTP(host, port)` constructor returning), `starttls` / `login` /
`sendmail` are those operations completing on the fresh connection, `close`
is the `with`-scope releasing the connection, and `sendOnProvided` is a
`sendmail` completing on a caller-supplied open session (line 221). -/
inductive SmtpEvent where
  | connect (host : String) (port : Nat)
  | starttls
  | login (user : String)
  | sendmail (toAddr : String)
  | close
  | sendOnProvided (toAddr : String)
deriving DecidableEq, Repr

/-- Which steps of `send_email` raise, as an oracle: `constructOk` covers the
message construction at lines 191-217 (e.g. a `KeyError` on a missing config
field), the remaining fields cover the transport calls. -/
structure TransportOracle where
  constructOk : Bool
  connectOk : Bool
  starttlsOk : Bool
  loginOk : Bool
  sendOk : Bool
deriving DecidableEq, Repr

/-- The fresh-connection branch of `send_email` (lines 223-228):
`with smtplib.SMTP(...)` then `starttls`, `login`, `sendmail`.  If the
constructor raises, no session exists and nothing is closed; once the
session exists, the `with` scope closes it on every exit path, normal or
raising. -/
def sendEmailFresh (senderEmail recipientEmail : String) (o : TransportOracle) :
    Except Unit Unit × List SmtpEvent :=
  if !o.connectOk then (.error (), [])
  else if !o.starttlsOk then
    (.error (), [.connect smtp_server smtp_port, .close])
  else if !o.loginOk then
    (.error (), [.connect smtp_server smtp_port, .starttls, .close])
  else if !o.sendOk then
    (.error (), [.connect smtp_server smtp_port, .starttls, .login senderEmail, .close])
  else
    (.ok (), [.connect smtp_server smtp_port, .starttls, .login senderEmail,
              .sendmail recipientEmail, .close])

/-- The `try` block of `send_email` (lines 190-231): build the message, then
either reuse the provided session (line 221, which is never closed here) or
open, use and close a fresh one.  Returns whether the block raised, plus the
transport events that occurred. -/
def sendEmailBody (senderEmail recipientEmail : String) (o : TransportOracle)
    (providedServer : Bool) : Except Unit Unit × List SmtpEvent :=
  if !o.constructOk then (.error (), [])
  else if providedServer then
    if o.sendOk then (.ok (), [.sendOnProvided recipientEmail])
    else (.error (), [])
  else sendEmailFresh senderEmail recipientEmail o

/-- `EmailSender.send_email` (lines 176-235): an empty config returns `False`
before the `try` block (lines 186-188); any exception raised inside the
`try` block is caught by `except Exception` (lines 233-235), logged, and
converted to a `False` return; success returns `True`.  The result is the
boolean returned to the caller together with the transport events. -/
def sendEmail (configLoaded : Bool) (senderEmail recipientEmail : String)
    (o : TransportOracle) (providedServer : Bool) : Bool × List SmtpEvent :=
  if !configLoaded then (false, [])
  else
    match sendEmailBody senderEmail recipientEmail o providedServer with
    | (.ok _, tr) => (true, tr)
    | (.error _, tr) => (false, tr)

/-- `header_content` (line 69). -/
def headerContent : String := "ICPEP.se Meneses Campus"

/-- Python f-string interpolation of a possibly-`None` value: `None` is
rendered as the text `None`. -/
def pyOptStr : Option String → String
  | some s => s
  | none => "None"

/-- `unique_id = f"msg_(timestamp)_(random 4-digit)"` (line 66), with the
clock reading and the random draw as explicit parameters. -/
def uniqueIdString (ts : String) (rand : Nat) : String :=
  "msg_" ++ ts ++ "_" ++ toString rand

/-- `logo_markup` (lines 70-83): a logo table with an inline `cid:` image
when a content id is available, else the text-only header span. -/
def logoMarkup : Option String → String
  | some cid =>
    "\n<table border=\"0\" cellpadding=\"0\" cellspacing=\"0\" width=\"100%\" role=\"presentation\">\n<tr>\n<td style=\"vertical-align:middle;\">\n<span style=\"font-size: 20px; font-weight: 600; color: #f36b3e; letter-spacing: -0.3px;\">" ++ headerContent ++ "</span>\n</td>\n<td align=\"right\" style=\"vertical-align:middle; width:60px;\">\n<img src=\"cid:" ++ cid ++ "\" alt=\"ICPEP.se Meneses Campus Logo\" loading=\"lazy\" style=\"height:80px; width:auto; display:block;\" />\n</td>\n</tr>\n</table>"
  | none =>
    "<span style=\"font-size: 20px; font-weight: 600; color: #f36b3e; letter-spacing: -0.3px;\">" ++ headerContent ++ "</span>"

/-- The `mode == "meet"` body paragraphs (lines 87-99). -/
def meetParagraphs (recipient_name : String) (mi : MeetInfo) : String :=
  "\n<p style=\"margin: 0 0 18px 0; font-size: 15px; line-height: 1.7; color: #d4d4d4;\">Dear " ++ recipient_name
    ++ ",</p>\n<p style=\"margin: 0 0 18px 0; font-size: 15px; line-height: 1.7; color: #d4d4d4;\">We invite you to join our <strong>Google Meet session</strong> to guide attendees on how to claim their courses. Please find the meeting details below:</p>\n<p style=\"margin: 0 0 18px 0; font-size: 15px; line-height: 1.7; color: #d4d4d4;\">\n<strong>Topic:</strong> " ++ mi.topic
    ++ "<br/>\n<strong>Date:</strong> " ++ mi.date
    ++ "<br/>\n<strong>Time:</strong> " ++ mi.time
    ++ "<br/>\n<strong>Google Meet Link:</strong> <a href=\"" ++ mi.link
    ++ "\" target=\"_blank\" style=\"color: #4aa3ff; text-decoration: underline;\">" ++ mi.link
    ++ "</a>\n</p>\n<p style=\"margin: 0 0 18px 0; font-size: 15px; line-height: 1.7; color: #d4d4d4;\">Congratulations! We are pleased to present you with your participation certificate.</p>\n<p style=\"margin: 0 0 18px 0; font-size: 15px; line-height: 1.7; color: #d4d4d4;\">You can download your certificate using the button below. Please save it for your records and feel free to share it on your professional profiles.</p>\n<p style=\"margin: 0 0 28px 0; font-size: 15px; line-height: 1.7; color: #d4d4d4;\">Best regards,<br/><span style=\"color: #b8b8b8;\">ICPEP.se Meneses Campus Team</span></p>\n"

/-- The certificate body paragraphs (lines 101-116); `certificate_url` has
type `Optional[str]` at the `send_email` call sites, and Python renders an
explicit `None` argument as the text `None`. -/
def certParagraphs (recipient_name : String) (certificate_url : Option String) : String :=
  "\n<p style=\"margin: 0 0 18px 0; font-size: 15px; line-height: 1.7; color: #d4d4d4;\">Dear " ++ recipient_name
    ++ ",</p>\n<p style=\"margin: 0 0 18px 0; font-size: 15px; line-height: 1.7; color: #d4d4d4;\">Congratulations! We are pleased to present you with your participation certificate.</p>\n<p style=\"margin: 0 0 18px 0; font-size: 15px; line-height: 1.7; color: #d4d4d4;\">You can download your certificate using the button below. Please save it for your records and feel free to share it on your professional profiles.</p>\n<table border=\"0\" cellpadding=\"0\" cellspacing=\"0\" style=\"margin: 0 0 16px 0;\" role=\"presentation\">\n<tr>\n<td align=\"left\" style=\"padding-top: 8px;\">\n<a href=\"" ++ pyOptStr certificate_url
    ++ "\" target=\"_blank\" class=\"download-button\" style=\"display: inline-block; padding: 12px 24px; background-color: transparent; border: 1px solid #666666; border-radius: 6px; color: #888888; text-decoration: none; font-size: 14px; font-weight: 500;\">\n<span style=\"color: #888888;\">Download Certificate</span>\n</a>\n</td>\n</tr>\n</table>\n<p style=\"margin: 0 0 18px 0; font-size: 13px; color: #d4d4d4; line-height: 1.6;\">Your certificate is available via the download link<br/>Save it for your professional records<br/>Share it on LinkedIn and other platforms</p>\n<p style=\"margin: 0 0 28px 0; font-size: 15px; line-height: 1.7; color: #d4d4d4;\">Best regards,<br/><span style=\"color: #b8b8b8;\">ICPEP.se Meneses Campus Team</span></p>\n"

/-- `main_paragraphs` selection (line 86): the meet body is used only when
`mode == "meet"` and `meet_info` is truthy (a present, non-empty dict —
modelled as `some`, since every call site builds all four keys). -/
def mainParagraphs (recipient_name mode : String) (certificate_url : Option String)
    (meet_info : Option MeetInfo) : String :=
  match meet_info with
  | some mi =>
    if mode = "meet" then meetParagraphs recipient_name mi
    else certParagraphs recipient_name certificate_url
  | none => certParagraphs recipient_name certificate_url

/-- `html_template` text from the start up to the `title` interpolation
(line 118-123). -/
def htmlDocStart : String :=
  "<!DOCTYPE html PUBLIC \"-//W3C//DTD XHTML 1.0 Transitional//EN\" \"http://www.w3.org/TR/xhtml1/DTD/xhtml1-transitional.dtd\">\n<html xmlns=\"http://www.w3.org/1999/xhtml\">\n<head>\n<meta http-equiv=\"Content-Type\" content=\"text/html; charset=UTF-8\" />\n<meta name=\"viewport\" content=\"width=device-width, initial-scale=1.0\"/>\n<title>"

/-- `html_template` text between the `subject` and `logo_markup`
interpolations (lines 123-152), CSS braces included. -/
def htmlTitleToLogo : String :=
  "</title>\n<style type=\"text/css\">\n.download-button:hover \x7b\n    background-color: #2a2a2a !important;\n    border-color: #888888 !important;\n\x7d\n.download-button span \x7b\n    color: #888888;\n\x7d\n.download-button:hover span \x7b\n    color: #ffffff !important;\n\x7d\n@media only screen and (max-width: 600px) \x7b\n    .email-container \x7b\n        width: 100% !important;\n        max-width: 100% !important;\n    \x7d\n    .content-padding \x7b\n        padding: 24px !important;\n    \x7d\n\x7d\n</style>\n</head>\n<body style=\"margin: 0; padding: 0; font-family: -apple-system, BlinkMacSystemFont, \x27Segoe UI\x27, Roboto, \x27Helvetica Neue\x27, Arial, sans-serif;\">\n<table border=\"0\" cellpadding=\"0\" cellspacing=\"0\" width=\"100%\" role=\"presentation\">\n<tr>\n<td align=\"center\" style=\"padding: 20px 0;\">\n<table border=\"0\" cellpadding=\"0\" cellspacing=\"0\" width=\"600\" class=\"email-container\" style=\"max-width: 600px; background-color: #1e1e1e; border: 1px solid #333333; border-radius: 8px;\" role=\"presentation\">\n<tr>\n<td style=\"padding: 28px 36px; border-bottom: 1px solid #333333; background-color: #1a1a1a; border-radius: 8px 8px 0 0;\">\n"

/-- `html_template` text between the `logo_markup` and `main_paragraphs`
interpolations (lines 153-157). -/
def htmlLogoToParagraphs : String :=
  "\n</td>\n</tr>\n<tr>\n<td class=\"content-padding\" style=\"padding: 36px 36px 32px 36px;\">\n"

/-- `html_template` text between the `main_paragraphs` interpolation and the
`datetime.now().year` interpolation in the footer (lines 158-164). -/
def htmlParagraphsToYear : String :=
  "\n</td>\n</tr>\n<tr>\n<td style=\"padding: 28px 36px; border-top: 1px solid #333333; background-color: #1a1a1a; text-align: center; border-radius: 0 0 8px 8px;\">\n<p style=\"margin: 0 0 12px 0; font-size: 13px; color: #999999; line-height: 1.6;\">Join our community of professionals and stay updated with the latest news and events.</p>\n<p style=\"margin: 0; font-size: 12px; color: #666666;\">&copy; "

/-- `html_template` text between the footer year and the `unique_id`
anti-thread-collapsing token (lines 164-171). -/
def htmlYearToToken : String :=
  " ICPEP.se Meneses Campus. All rights reserved.</p>\n</td>\n</tr>\n</table>\n</td>\n</tr>\n</table>\n<div style=\"display:none;white-space:nowrap;font-size:15px;line-height:0;\">&nbsp; &nbsp; &nbsp; &nbsp; &nbsp; &nbsp; &nbsp; &nbsp; &nbsp; &nbsp; &nbsp; &nbsp; &nbsp; &nbsp; &nbsp; &nbsp; &nbsp; &nbsp; &nbsp; &nbsp; &nbsp; &nbsp; &nbsp; &nbsp; &nbsp; &nbsp; &nbsp; &nbsp; &nbsp; &nbsp; "

/-- `html_template` text after the `unique_id` token (lines 171-173). -/
def htmlTailConst : String :=
  "</div>\n</body>\n</html>"

/-- Everything of the rendered template that precedes the footer year: a
function of the fixed input tuple only. -/
def htmlBeforeYear (recipient_name subject mode : String)
    (certificate_url : Option String) (meet_info : Option MeetInfo)
    (logo_cid : Option String) : String :=
  htmlDocStart ++ subject ++ htmlTitleToLogo ++ logoMarkup logo_cid
    ++ htmlLogoToParagraphs
    ++ mainParagraphs recipient_name mode certificate_url meet_info
    ++ htmlParagraphsToYear

/-- `EmailSender._create_html_template` (lines 59-174).  The two values read
from the environment at render time — the clock (driving both the `unique_id`
token and the footer `datetime.now().year`) and the random 4-digit draw — are
explicit parameters `ts`, `rand`, `year`.  The rendered document is the
f-string of lines 118-173: the fixed text segments with `subject`,
`logo_markup`, `main_paragraphs`, the year and the token interpolated in
source order. -/
def createHtmlTemplate (recipient_name subject mode : String)
    (certificate_url : Option String) (meet_info : Option MeetInfo)
    (logo_cid : Option String) (ts : String) (rand year : Nat) : String :=
  htmlBeforeYear recipient_name subject mode certificate_url meet_info logo_cid
    ++ (toString year ++ (htmlYearToToken ++ (uniqueIdString ts rand ++ htmlTailConst)))

/-! ## Helper lemmas -/

theorem bulkLoopStep_none {mk : String → String → RecipientDetails → SendCall}
    {f : Nat → Bool} {st : BulkState} {p : String × RecipientDetails}
    (h : resolvedEmail p.2 = none) :
    bulkLoopStep mk f st p = { st with missingLogs := st.missingLogs ++ [p.1] } := by
  simp [bulkLoopStep, h]

theorem bulkLoopStep_some {mk : String → String → RecipientDetails → SendCall}
    {f : Nat → Bool} {st : BulkState} {p : String × RecipientDetails} {e : String}
    (h : resolvedEmail p.2 = some e) :
    bulkLoopStep mk f st p
      = { calls := st.calls ++ [mk p.1 e p.2], missingLogs := st.missingLogs,
          results := dictInsert e (f st.sendCount) st.results,
          sendCount := st.sendCount + 1 } := by
  simp [bulkLoopStep, h]

theorem countResolvable_cons_none {p : String × RecipientDetails}
    {l : List (String × RecipientDetails)} (h : resolvedEmail p.2 = none) :
    countResolvable (p :: l) = countResolvable l := by
  simp [countResolvable, List.filterMap_cons, h]

theorem countResolvable_cons_some {p : String × RecipientDetails}
    {l : List (String × RecipientDetails)} {e : String} (h : resolvedEmail p.2 = some e) :
    countResolvable (p :: l) = countResolvable l + 1 := by
  simp [countResolvable, List.filterMap_cons, h]

theorem dictInsert_length_le (k : String) (v : Bool) (l : List (String × Bool)) :
    (dictInsert k v l).length ≤ l.length + 1 := by
  induction l with
  | nil => simp [dictInsert]
  | cons hd tl ih =>
    obtain ⟨k', v'⟩ := hd
    by_cases h : k' = k
    all_goals simp [dictInsert, h]
    all_goals omega

theorem dictInsert_mem {l : List (String × Bool)} {k e : String} {v b : Bool}
    (h : (e, b) ∈ dictInsert k v l) : e = k ∨ ∃ b', (e, b') ∈ l := by
  induction l with
  | nil =>
    simp [dictInsert] at h
    exact Or.inl h.1
  | cons hd tl ih =>
    obtain ⟨k', v'⟩ := hd
    by_cases hk : k' = k
    · simp only [dictInsert, if_pos hk] at h
      rcases List.mem_cons.mp h with heq | hmem
      · exact Or.inl (congrArg Prod.fst heq)
      · exact Or.inr ⟨b, List.mem_cons_of_mem _ hmem⟩
    · simp only [dictInsert, if_neg hk] at h
      rcases List.mem_cons.mp h with heq | hmem
      · exact Or.inr ⟨b, heq ▸ List.mem_cons_self _ _⟩
      · rcases ih hmem with hek | ⟨b', hb'⟩
        · exact Or.inl hek
        · exact Or.inr ⟨b', List.mem_cons_of_mem _ hb'⟩

theorem bulkFold_missingLogs_mono (mk : String → String → RecipientDetails → SendCall)
    (f : Nat → Bool) (l : List (String × RecipientDetails)) (st : BulkState)
    (x : String) (hx : x ∈ st.missingLogs) :
    x ∈ (l.foldl (bulkLoopStep mk f) st).missingLogs := by
  induction l generalizing st with
  | nil => simpa using hx
  | cons hd tl ih =>
    simp only [List.foldl_cons]
    apply ih
    cases hres : resolvedEmail hd.2 with
    | none => rw [bulkLoopStep_none hres]; exact List.mem_append_left _ hx
    | some e => rw [bulkLoopStep_some hres]; exact hx

theorem bulkFold_missing_logged (mk : String → String → RecipientDetails → SendCall)
    (f : Nat → Bool) (l : List (String × RecipientDetails)) (st : BulkState)
    (name : String) (d : RecipientDetails)
    (hmem : (name, d) ∈ l) (hres : resolvedEmail d = none) :
    name ∈ (l.foldl (bulkLoopStep mk f) st).missingLogs := by
  induction l generalizing st with
  | nil => simp at hmem
  | cons hd tl ih =>
    simp only [List.foldl_cons]
    rcases List.mem_cons.mp hmem with heq | htl
    · subst heq
      apply bulkFold_missingLogs_mono
      rw [bulkLoopStep_none hres]
      simp
    · exact ih _ htl

theorem bulkFold_results_length (mk : String → String → RecipientDetails → SendCall)
    (f : Nat → Bool) (l : List (String × RecipientDetails)) (st : BulkState) :
    ((l.foldl (bulkLoopStep mk f) st).results).length
      ≤ st.results.length + countResolvable l := by
  induction l generalizing st with
  | nil => simp [countResolvable]
  | cons hd tl ih =>
    simp only [List.foldl_cons]
    cases hres : resolvedEmail hd.2 with
    | none =>
      rw [countResolvable_cons_none hres, bulkLoopStep_none hres]
      simpa using ih _
    | some e =>
      rw [countResolvable_cons_some hres, bulkLoopStep_some hres]
      refine le_trans (ih _) ?_
      show (dictInsert e (f st.sendCount) st.results).length + countResolvable tl
          ≤ st.results.length + (countResolvable tl + 1)
      have h2 := dictInsert_length_le e (f st.sendCount) st.results
      omega

theorem bulkFold_results_keys (mk : String → String → RecipientDetails → SendCall)
    (f : Nat → Bool) (l : List (String × RecipientDetails)) (st : BulkState)
    (e : String) (b : Bool)
    (h : (e, b) ∈ (l.foldl (bulkLoopStep mk f) st).results) :
    (∃ b', (e, b') ∈ st.results) ∨ ∃ p ∈ l, resolvedEmail p.2 = some e := by
  induction l generalizing st with
  | nil => exact Or.inl ⟨b, by simpa using h⟩
  | cons hd tl ih =>
    simp only [List.foldl_cons] at h
    rcases ih _ h with ⟨b', hb'⟩ | ⟨p, hp, hpe⟩
    · cases hres : resolvedEmail hd.2 with
      | none =>
        rw [bulkLoopStep_none hres] at hb'
        exact Or.inl ⟨b', hb'⟩
      | some e2 =>
        rw [bulkLoopStep_some hres] at hb'
        rcases dictInsert_mem hb' with heq | ⟨b'', hb''⟩
        · exact Or.inr ⟨hd, List.mem_cons_self _ _, heq ▸ hres⟩
        · exact Or.inl ⟨b'', hb''⟩
    · exact Or.inr ⟨p, List.mem_cons_of_mem _ hp, hpe⟩

theorem bulkFold_calls_emails (mk : String → String → RecipientDetails → SendCall)
    (f : Nat → Bool) (hmk : ∀ n e d, (mk n e d).recipient_email = e)
    (l : List (String × RecipientDetails)) (st : BulkState) :
    (l.foldl (bulkLoopStep mk f) st).calls.map SendCall.recipient_email
      = st.calls.map SendCall.recipient_email
          ++ l.filterMap (fun p => resolvedEmail p.2) := by
  induction l generalizing st with
  | nil => simp
  | cons hd tl ih =>
    simp only [List.foldl_cons]
    cases hres : resolvedEmail hd.2 with
    | none =>
      rw [ih, bulkLoopStep_none hres]
      simp [List.filterMap_cons, hres]
    | some e =>
      rw [ih, bulkLoopStep_some hres]
      simp [List.filterMap_cons, hres, hmk]

theorem tmpl_year_cancel (n s m : String) (c : Option String) (mi : Option MeetInfo)
    (cid : Option String) (ts : String) (r y1 y2 : Nat)
    (h : createHtmlTemplate n s m c mi cid ts r y1
          = createHtmlTemplate n s m c mi cid ts r y2) :
    (toString y1 : String) = toString y2 := by
  have h2 := congrArg String.data h
  simp only [createHtmlTemplate, String.data_append] at h2
  exact String.ext (List.append_cancel_right (List.append_cancel_left h2))

theorem getLogoDataStep_out {u : String} {fetch : Nat → Option (List Nat)}
    {msgId : Nat → String} {st : LogoState} {a : Nat} {bs : List Nat} {mid : String}
    (h : (getLogoDataStep u fetch msgId st a).1 = (some bs, some mid)) :
    (getLogoDataStep u fetch msgId st a).2.1 = ⟨some bs, some mid⟩ := by
  by_cases h1 : bytesTruthy st.logo_data
  · simp [getLogoDataStep, h1] at h ⊢
    obtain ⟨hd, hm⟩ := h
    cases st
    simp_all
  · by_cases h2 : u = ""
    · simp [getLogoDataStep, h1, h2] at h
    · cases hf : fetch a with
      | none => simp [getLogoDataStep, h1, h2, hf] at h
      | some bs' =>
        simp [getLogoDataStep, h1, h2, hf] at h ⊢
        obtain ⟨hbs, hm⟩ := h
        simp_all

theorem getLogoDataStep_cached (u : String) (fetch : Nat → Option (List Nat))
    (msgId : Nat → String) (bs : List Nat) (mid : String) (a : Nat) (hbs : bs ≠ []) :
    getLogoDataStep u fetch msgId ⟨some bs, some mid⟩ a
      = ((some bs, some mid), ⟨some bs, some mid⟩, a) := by
  simp [getLogoDataStep, bytesTruthy, hbs]

theorem runLogo_stable (u : String) (fetch : Nat → Option (List Nat))
    (msgId : Nat → String) (i : Nat) (bs : List Nat) (mid : String)
    (hout : logoCallOutput u fetch msgId i = (some bs, some mid)) (hbs : bs ≠ []) :
    ∀ k, runLogoCalls u fetch msgId (i + 1 + k)
      = (⟨some bs, some mid⟩, logoAttempts u fetch msgId (i + 1)) := by
  intro k
  induction k with
  | zero =>
    have hout2 : (getLogoDataStep u fetch msgId (runLogoCalls u fetch msgId i).1
        (runLogoCalls u fetch msgId i).2).1 = (some bs, some mid) := hout
    have h1 := getLogoDataStep_out hout2
    show runLogoCalls u fetch msgId (i + 1) = _
    rw [runLogoCalls, logoAttempts, runLogoCalls]
    exact Prod.ext h1 rfl
  | succ k ih =>
    show runLogoCalls u fetch msgId ((i + 1 + k) + 1) = _
    rw [runLogoCalls, ih]
    exact congrArg Prod.snd
      (getLogoDataStep_cached u fetch msgId bs mid (logoAttempts u fetch msgId (i + 1)) hbs)

/-! ## Claim theorems -/

/-- C1: counterexample to the claim as stated.  In certificate mode, on the
spec's own end-to-end directory `{Ana: {email, certificate_url}, Bo: "bo@x.com"}`,
the entry `Bo` has a non-empty email and no `certificate_url`, yet the
orchestrator DOES invoke the dispatcher for `Bo`, and the result recorded for
`bo@x.com` is the send outcome (`true` here), not a failure. -/
theorem claim_C1_counterexample :
    ¬ ((∀ c ∈ (bulkCertificate "Subj" true (fun _ => true)
          [("Ana", RecipientDetails.detailed (some "ana@x.com") (some "http://c/ana.pdf")),
           ("Bo", RecipientDetails.direct "bo@x.com")]).calls,
          c.recipient_name ≠ "Bo")
        ∧ dictLookup "bo@x.com"
            (bulkCertificate "Subj" true (fun _ => true)
              [("Ana", RecipientDetails.detailed (some "ana@x.com") (some "http://c/ana.pdf")),
               ("Bo", RecipientDetails.direct "bo@x.com")]).results = some false) := by
  decide

/-- C1 (amended): in certificate mode, a recipient entry with a non-empty
email but no `certificate_url` is NOT skipped: the bulk orchestrator invokes
the dispatcher for it with the placeholder certificate URL `"#"`, and records
the outcome of that dispatch (success or failure) in the result mapping. -/
theorem claim_C1_amended (subj : String) (f : Nat → Bool) (st : BulkState)
    (name : String) (d : RecipientDetails) (e : String)
    (he : resolvedEmail d = some e) (hc : hasCertUrl d = false) :
    bulkLoopStep (certCall subj) f st (name, d)
      = { calls := st.calls ++ [⟨e, subj, name, "certificate", some "#", none, true⟩],
          missingLogs := st.missingLogs,
          results := dictInsert e (f st.sendCount) st.results,
          sendCount := st.sendCount + 1 } := by
  have hcert : entryCertUrl d = "#" := by
    cases d with
    | direct e => rfl
    | detailed e c =>
      cases c with
      | none => rfl
      | some u => simp [hasCertUrl] at hc
  rw [bulkLoopStep_some he]
  simp [certCall, hcert]

/-- C1 witness: the amended behaviour at the concrete entry `Bo`. -/
theorem claim_C1_witness :
    bulkLoopStep (certCall "Subj") (fun _ => true) initBulkState
        ("Bo", RecipientDetails.direct "bo@x.com")
      = { calls := [⟨"bo@x.com", "Subj", "Bo", "certificate", some "#", none, true⟩],
          missingLogs := [], results := [("bo@x.com", true)], sendCount := 1 } := by
  have h := claim_C1_amended "Subj" (fun _ => true) initBulkState "Bo"
    (RecipientDetails.direct "bo@x.com") "bo@x.com" (by decide) (by decide)
  simpa [initBulkState, dictInsert] using h

/-- C2: in both bulk flows, if the operator answers `y` to the test-email
prompt but then supplies a test address that strips to the empty string, the
test send and the proceed-confirmation gate are skipped entirely and bulk
sending begins immediately over the full recipient directory. -/
theorem claim_C2 (subject certSubject : String) (mi : MeetInfo) (ans : OperatorAnswers)
    (testOk connOk : Bool) (f : Nat → Bool) (recips : List (String × RecipientDetails))
    (hy : pyLower (pyStrip ans.sendTestAnswer) = "y")
    (he : pyStrip ans.testEmailRaw = "") :
    sendBulkMeetInvites subject mi ans testOk connOk f recips
      = .ran none (bulkMeet subject mi connOk f recips)
    ∧ mainBulkCertificate certSubject ans testOk connOk f recips
      = .ran none (bulkCertificate certSubject connOk f recips) := by
  constructor <;> simp [sendBulkMeetInvites, mainBulkCertificate, hy, he]

/-- C2 witness: concrete operator answers `" Y "` then `"  "`. -/
theorem claim_C2_witness :
    sendBulkMeetInvites "s" ⟨"t", "d", "h", "l"⟩ ⟨" Y ", "  ", "n"⟩ true true (fun _ => true)
        [("A", RecipientDetails.direct "a@x.com")]
      = .ran none (bulkMeet "s" ⟨"t", "d", "h", "l"⟩ true (fun _ => true)
          [("A", RecipientDetails.direct "a@x.com")])
    ∧ mainBulkCertificate "c" ⟨" Y ", "  ", "n"⟩ true true (fun _ => true)
        [("A", RecipientDetails.direct "a@x.com")]
      = .ran none (bulkCertificate "c" true (fun _ => true)
          [("A", RecipientDetails.direct "a@x.com")]) :=
  claim_C2 "s" "c" ⟨"t", "d", "h", "l"⟩ ⟨" Y ", "  ", "n"⟩ true true (fun _ => true)
    [("A", RecipientDetails.direct "a@x.com")] (by decide) (by decide)

/-- C3: in both bulk flows, whenever the test-phase send is performed
(operator answered `y`, supplied a non-empty test address, and a first
directory entry exists) and the test send fails, the flow aborts in the
test-failed state: zero bulk dispatches occur and the result mapping of the
run is empty. -/
theorem claim_C3 (subject certSubject : String) (mi : MeetInfo) (ans : OperatorAnswers)
    (connOk : Bool) (f : Nat → Bool) (recips : List (String × RecipientDetails))
    (fe : String × RecipientDetails)
    (hy : pyLower (pyStrip ans.sendTestAnswer) = "y")
    (he : pyStrip ans.testEmailRaw ≠ "")
    (hf : recips.head? = some fe) :
    (∃ tc, sendBulkMeetInvites subject mi ans false connOk f recips = .testFailed tc)
    ∧ flowBulkCalls (sendBulkMeetInvites subject mi ans false connOk f recips) = []
    ∧ flowResults (sendBulkMeetInvites subject mi ans false connOk f recips) = []
    ∧ (∃ tc, mainBulkCertificate certSubject ans false connOk f recips = .testFailed tc)
    ∧ flowBulkCalls (mainBulkCertificate certSubject ans false connOk f recips) = []
    ∧ flowResults (mainBulkCertificate certSubject ans false connOk f recips) = [] := by
  obtain ⟨fn, fd⟩ := fe
  refine ⟨⟨meetTestCall subject mi (pyStrip ans.testEmailRaw) fn, ?_⟩, ?_, ?_,
    ⟨certTestCall certSubject (pyStrip ans.testEmailRaw) fn fd, ?_⟩, ?_, ?_⟩ <;>
    simp [sendBulkMeetInvites, mainBulkCertificate, hy, he, hf,
      flowBulkCalls, flowResults]

/-- C3 witness: a concrete failing test run. -/
theorem claim_C3_witness :
    flowBulkCalls (sendBulkMeetInvites "s" ⟨"t", "d", "h", "l"⟩ ⟨"y", "t@x.com", "y"⟩
        false true (fun _ => true) [("A", RecipientDetails.direct "a@x.com")]) = []
    ∧ flowResults (mainBulkCertificate "c" ⟨"y", "t@x.com", "y"⟩
        false true (fun _ => true) [("A", RecipientDetails.direct "a@x.com")]) = [] := by
  have h := claim_C3 "s" "c" ⟨"t", "d", "h", "l"⟩ ⟨"y", "t@x.com", "y"⟩ true (fun _ => true)
    [("A", RecipientDetails.direct "a@x.com")] ("A", RecipientDetails.direct "a@x.com")
    (by decide) (by decide) (by decide)
  exact ⟨h.2.1, h.2.2.2.2.2⟩

/-- C4: in both bulk flows, whenever the test-phase send is performed and
succeeds but the operator's answer to the proceed confirmation is anything
other than `y`, the flow aborts in the declined state: zero bulk dispatches
occur and the result mapping of the run is empty. -/
theorem claim_C4 (subject certSubject : String) (mi : MeetInfo) (ans : OperatorAnswers)
    (connOk : Bool) (f : Nat → Bool) (recips : List (String × RecipientDetails))
    (fe : String × RecipientDetails)
    (hy : pyLower (pyStrip ans.sendTestAnswer) = "y")
    (he : pyStrip ans.testEmailRaw ≠ "")
    (hf : recips.head? = some fe)
    (hp : pyLower (pyStrip ans.proceedAnswer) ≠ "y") :
    (∃ tc, sendBulkMeetInvites subject mi ans true connOk f recips = .declined tc)
    ∧ flowBulkCalls (sendBulkMeetInvites subject mi ans true connOk f recips) = []
    ∧ flowResults (sendBulkMeetInvites subject mi ans true connOk f recips) = []
    ∧ (∃ tc, mainBulkCertificate certSubject ans true connOk f recips = .declined tc)
    ∧ flowBulkCalls (mainBulkCertificate certSubject ans true connOk f recips) = []
    ∧ flowResults (mainBulkCertificate certSubject ans true connOk f recips) = [] := by
  obtain ⟨fn, fd⟩ := fe
  refine ⟨⟨meetTestCall subject mi (pyStrip ans.testEmailRaw) fn, ?_⟩, ?_, ?_,
    ⟨certTestCall certSubject (pyStrip ans.testEmailRaw) fn fd, ?_⟩, ?_, ?_⟩ <;>
    simp [sendBulkMeetInvites, mainBulkCertificate, hy, he, hf, hp,
      flowBulkCalls, flowResults]

/-- C4 witness: a concrete declined run (`proceed = "n"`). -/
theorem claim_C4_witness :
    flowResults (sendBulkMeetInvites "s" ⟨"t", "d", "h", "l"⟩ ⟨"y", "t@x.com", "n"⟩
        true true (fun _ => true) [("A", RecipientDetails.direct "a@x.com")]) = []
    ∧ flowBulkCalls (mainBulkCertificate "c" ⟨"y", "t@x.com", "n"⟩
        true true (fun _ => true) [("A", RecipientDetails.direct "a@x.com")]) = [] := by
  have h := claim_C4 "s" "c" ⟨"t", "d", "h", "l"⟩ ⟨"y", "t@x.com", "n"⟩ true (fun _ => true)
    [("A", RecipientDetails.direct "a@x.com")] ("A", RecipientDetails.direct "a@x.com")
    (by decide) (by decide) (by decide) (by decide)
  exact ⟨h.2.2.1, h.2.2.2.2.1⟩

/-- C5: for every recipient directory, after a bulk run (certificate or meet)
the number of entries in the result mapping never exceeds the number of
directory entries with a non-empty resolvable email; when the loop runs,
every entry with a missing/empty email is logged; and every key of the
result mapping is the resolved email of some directory entry, so
missing-email entries are never recorded in the result mapping. -/
theorem claim_C5 (subject certSubject : String) (mi : MeetInfo) (connOk : Bool)
    (f : Nat → Bool) (recips : List (String × RecipientDetails)) :
    ((bulkCertificate certSubject connOk f recips).results).length ≤ countResolvable recips
    ∧ ((bulkMeet subject mi connOk f recips).results).length ≤ countResolvable recips
    ∧ (connOk = true → ∀ name d, (name, d) ∈ recips → resolvedEmail d = none →
        name ∈ (bulkCertificate certSubject connOk f recips).missingLogs
        ∧ name ∈ (bulkMeet subject mi connOk f recips).missingLogs)
    ∧ (∀ e b, (e, b) ∈ (bulkCertificate certSubject connOk f recips).results →
        ∃ p ∈ recips, resolvedEmail p.2 = some e)
    ∧ (∀ e b, (e, b) ∈ (bulkMeet subject mi connOk f recips).results →
        ∃ p ∈ recips, resolvedEmail p.2 = some e) := by
  cases connOk with
  | false =>
    refine ⟨?_, ?_, ?_, ?_, ?_⟩ <;>
      simp [bulkCertificate, bulkMeet, initBulkState]
  | true =>
    refine ⟨?_, ?_, ?_, ?_, ?_⟩
    · simpa [bulkCertificate, initBulkState] using
        bulkFold_results_length (certCall certSubject) f recips initBulkState
    · simpa [bulkMeet, initBulkState] using
        bulkFold_results_length (meetCall subject mi) f recips initBulkState
    · intro _ name d hmem hres
      exact ⟨by simpa [bulkCertificate] using
          bulkFold_missing_logged (certCall certSubject) f recips initBulkState name d hmem hres,
        by simpa [bulkMeet] using
          bulkFold_missing_logged (meetCall subject mi) f recips initBulkState name d hmem hres⟩
    · intro e b h
      rcases bulkFold_results_keys (certCall certSubject) f recips initBulkState e b
          (by simpa [bulkCertificate] using h) with ⟨b', hb'⟩ | hex
      · simp [initBulkState] at hb'
      · exact hex
    · intro e b h
      rcases bulkFold_results_keys (meetCall subject mi) f recips initBulkState e b
          (by simpa [bulkMeet] using h) with ⟨b', hb'⟩ | hex
      · simp [initBulkState] at hb'
      · exact hex

/-- C5 witness: a concrete directory with one resolvable entry, one entry
with a missing email field and one entry with an empty email. -/
theorem claim_C5_witness :
    ((bulkCertificate "c" true (fun _ => true)
        [("A", RecipientDetails.direct "a@x.com"),
         ("B", RecipientDetails.detailed none none),
         ("C", RecipientDetails.direct "")]).results).length
      ≤ countResolvable
          [("A", RecipientDetails.direct "a@x.com"),
           ("B", RecipientDetails.detailed none none),
           ("C", RecipientDetails.direct "")]
    ∧ "B" ∈ (bulkCertificate "c" true (fun _ => true)
        [("A", RecipientDetails.direct "a@x.com"),
         ("B", RecipientDetails.detailed none none),
         ("C", RecipientDetails.direct "")]).missingLogs := by
  have h := claim_C5 "s" "c" ⟨"t", "d", "h", "l"⟩ true (fun _ => true)
    [("A", RecipientDetails.direct "a@x.com"),
     ("B", RecipientDetails.detailed none none),
     ("C", RecipientDetails.direct "")]
  exact ⟨h.1, (h.2.2.1 rfl "B" (RecipientDetails.detailed none none) (by decide) rfl).1⟩

/-- C6: counterexample to the claim as stated.  Two renderings with an
identical fixed input tuple (and even an identical token) taken in different
years differ outside the token region: the footer interpolates
`datetime.now().year`, which is read from the clock at render time just like
the token, so no common prefix/suffix pair around the token can describe
both renderings. -/
theorem claim_C6_counterexample :
    ¬ ∃ A B : String,
        createHtmlTemplate "Ana" "Subject" "certificate" (some "#") none none
            "20251012080000000000" 1234 2025
          = A ++ uniqueIdString "20251012080000000000" 1234 ++ B
        ∧ createHtmlTemplate "Ana" "Subject" "certificate" (some "#") none none
            "20251012080000000000" 1234 2026
          = A ++ uniqueIdString "20251012080000000000" 1234 ++ B := by
  rintro ⟨A, B, h1, h2⟩
  have h := tmpl_year_cancel _ _ _ _ _ _ _ _ _ _ (h1.trans h2.symm)
  exact absurd h (by decide)

/-- C6 (amended): template rendering is deterministic modulo the
anti-clipping token AND the footer copyright year, both of which are read
from the clock at render time.  For a fixed input tuple and a fixed year, any
two renderings are byte-identical except within the token region: there is a
common prefix `A` and suffix `B`, determined by the inputs and the year
alone, such that each rendering is `A ++ token ++ B`. -/
theorem claim_C6_amended (recipient_name subject mode : String)
    (certificate_url : Option String) (meet_info : Option MeetInfo)
    (logo_cid : Option String) (year : Nat) (ts₁ : String) (r₁ : Nat)
    (ts₂ : String) (r₂ : Nat) :
    ∃ A B : String,
      createHtmlTemplate recipient_name subject mode certificate_url meet_info
          logo_cid ts₁ r₁ year
        = A ++ uniqueIdString ts₁ r₁ ++ B
      ∧ createHtmlTemplate recipient_name subject mode certificate_url meet_info
          logo_cid ts₂ r₂ year
        = A ++ uniqueIdString ts₂ r₂ ++ B := by
  refine ⟨htmlBeforeYear recipient_name subject mode certificate_url meet_info logo_cid
      ++ toString year ++ htmlYearToToken, htmlTailConst, ?_, ?_⟩ <;>
    (apply String.ext;
     simp [createHtmlTemplate, String.data_append, List.append_assoc])

/-- C7: counterexample to the claim as stated.  The cache test is Python
truthiness of the bytes object (`if self._logo_data:`), so a successful fetch
of an EMPTY body is returned to the caller but not treated as cached: the
next call performs another fetch (the attempt count rises from 1 to 2) and
can return different bytes and a different content identifier. -/
theorem claim_C7_counterexample :
    ¬ ∀ (logo_url : String) (fetch : Nat → Option (List Nat)) (msgId : Nat → String)
        (i : Nat) (bs : List Nat) (mid : String),
        logoCallOutput logo_url fetch msgId i = (some bs, some mid) →
        logoCallOutput logo_url fetch msgId (i + 1) = (some bs, some mid)
        ∧ logoAttempts logo_url fetch msgId (i + 2)
            = logoAttempts logo_url fetch msgId (i + 1) := by
  intro h
  have hc := h "u" (fun k => if k = 0 then some [] else some [55])
    (fun k => toString k) 0 [] "0" (by decide)
  exact absurd hc.1 (by decide)

/-- C7 (amended): after any `_get_logo_data` call that returns NON-EMPTY logo
bytes, every subsequent call returns the same cached bytes and content
identifier without performing another fetch (the attempt count stays fixed);
moreover a raised fetch is absorbed: the call returns `(None, None)` with the
cache unchanged, and a `(None, None)` result yields no inline-image content
id, so the message degrades to the text-only header. -/
theorem claim_C7_amended :
    (∀ (logo_url : String) (fetch : Nat → Option (List Nat)) (msgId : Nat → String)
        (i : Nat) (bs : List Nat) (mid : String),
        logoCallOutput logo_url fetch msgId i = (some bs, some mid) → bs ≠ [] →
        ∀ j, i < j →
          logoCallOutput logo_url fetch msgId j = (some bs, some mid)
          ∧ logoAttempts logo_url fetch msgId (j + 1)
              = logoAttempts logo_url fetch msgId (i + 1))
    ∧ (∀ (logo_url : String) (fetch : Nat → Option (List Nat)) (msgId : Nat → String)
        (st : LogoState) (a : Nat),
        logo_url ≠ "" → bytesTruthy st.logo_data = false → fetch a = none →
        getLogoDataStep logo_url fetch msgId st a = ((none, none), st, a + 1))
    ∧ logoCidValue ((none : Option (List Nat)), (none : Option String)) = none := by
  refine ⟨?_, ?_, rfl⟩
  · intro u fetch msgId i bs mid hout hbs j hij
    obtain ⟨k, rfl⟩ : ∃ k, j = i + 1 + k := ⟨j - i - 1, by omega⟩
    have hst := runLogo_stable u fetch msgId i bs mid hout hbs
    constructor
    · show (getLogoDataStep u fetch msgId (runLogoCalls u fetch msgId (i + 1 + k)).1
        (runLogoCalls u fetch msgId (i + 1 + k)).2).1 = _
      rw [hst k]
      exact congrArg Prod.fst
        (getLogoDataStep_cached u fetch msgId bs mid
          (logoAttempts u fetch msgId (i + 1)) hbs)
    · show (runLogoCalls u fetch msgId ((i + 1 + k) + 1)).2 = _
      rw [runLogoCalls, hst k]
      exact congrArg (fun q => q.2.2)
        (getLogoDataStep_cached u fetch msgId bs mid
          (logoAttempts u fetch msgId (i + 1)) hbs)
  · intro u fetch msgId st a hu hst hf
    simp [getLogoDataStep, hst, hu, hf]

/-- C7 witness: the amended caching property and failure behaviour at
concrete oracles. -/
theorem claim_C7_witness :
    (logoCallOutput "u" (fun _ => some [9]) (fun k => toString k) 1 = (some [9], some "0")
      ∧ logoAttempts "u" (fun _ => some [9]) (fun k => toString k) 2
          = logoAttempts "u" (fun _ => some [9]) (fun k => toString k) 1)
    ∧ getLogoDataStep "u" (fun _ => none) (fun k => toString k) initLogoState 0
        = ((none, none), initLogoState, 1) := by
  constructor
  · exact (claim_C7_amended.1 "u" (fun _ => some [9]) (fun k => toString k) 0 [9] "0"
      (by decide) (by decide) 1 (by decide))
  · exact claim_C7_amended.2.1 "u" (fun _ => none) (fun k => toString k)
      initLogoState 0 (by decide) (by decide) rfl

/-- C8: `send_email` converts every error raised during message construction
or transmission into a `false` return and never propagates an exception: its
result is exactly `configLoaded && (the try block succeeded)`.  Consequently
a per-recipient failure never aborts a bulk batch: the sequence of recipient
emails dispatched by a bulk loop is the full list of resolvable directory
emails, independent of the per-send outcomes. -/
theorem claim_C8 (cfgLoaded : Bool) (senderEmail recipientEmail : String)
    (o : TransportOracle) (provided : Bool) (subj : String) (mi : MeetInfo)
    (f g : Nat → Bool) (recips : List (String × RecipientDetails)) :
    (sendEmail cfgLoaded senderEmail recipientEmail o provided).1
      = (cfgLoaded && (sendEmailBody senderEmail recipientEmail o provided).1.isOk)
    ∧ (bulkCertificate subj true f recips).calls.map SendCall.recipient_email
        = recips.filterMap (fun p => resolvedEmail p.2)
    ∧ (bulkMeet subj mi true f recips).calls.map SendCall.recipient_email
        = recips.filterMap (fun p => resolvedEmail p.2)
    ∧ (bulkCertificate subj true f recips).calls.map SendCall.recipient_email
        = (bulkCertificate subj true g recips).calls.map SendCall.recipient_email := by
  have hcert : ∀ (h : Nat → Bool),
      (bulkCertificate subj true h recips).calls.map SendCall.recipient_email
        = recips.filterMap (fun p => resolvedEmail p.2) := by
    intro h
    simpa [bulkCertificate, initBulkState] using
      bulkFold_calls_emails (certCall subj) h (fun _ _ _ => rfl) recips initBulkState
  refine ⟨?_, hcert f, ?_, (hcert f).trans (hcert g).symm⟩
  · cases cfgLoaded with
    | false => simp [sendEmail]
    | true =>
      rcases hb : sendEmailBody senderEmail recipientEmail o provided with ⟨e, tr⟩
      cases e <;> simp [sendEmail, hb, Except.isOk, Except.toBool]
  · simpa [bulkMeet, initBulkState] using
      bulkFold_calls_emails (meetCall subj mi) f (fun _ _ _ => rfl) recips initBulkState

/-- C9: when `send_email` opens its own session, every established connection
is to the fixed host/port and is closed on every exit path (the number of
`close` events always equals the number of `connect` events), and on the
successful path the full `connect`-`starttls`-`login`-`sendmail`-`close`
sequence is performed; when an open session is supplied, `send_email`
performs no `connect` and never closes the caller's session. -/
theorem claim_C9 (cfgLoaded : Bool) (senderEmail recipientEmail : String)
    (o : TransportOracle) :
    ((sendEmail cfgLoaded senderEmail recipientEmail o false).2.count SmtpEvent.close
      = (sendEmail cfgLoaded senderEmail recipientEmail o false).2.count
          (SmtpEvent.connect smtp_server smtp_port))
    ∧ (∀ h p, SmtpEvent.connect h p ∈ (sendEmail cfgLoaded senderEmail recipientEmail o false).2
        → h = smtp_server ∧ p = smtp_port)
    ∧ ((sendEmail cfgLoaded senderEmail recipientEmail o false).1 = true →
        (sendEmail cfgLoaded senderEmail recipientEmail o false).2
          = [SmtpEvent.connect smtp_server smtp_port, SmtpEvent.starttls,
             SmtpEvent.login senderEmail, SmtpEvent.sendmail recipientEmail,
             SmtpEvent.close])
    ∧ SmtpEvent.close ∉ (sendEmail cfgLoaded senderEmail recipientEmail o true).2
    ∧ (∀ h p, SmtpEvent.connect h p ∉ (sendEmail cfgLoaded senderEmail recipientEmail o true).2) := by
  obtain ⟨c1, c2, c3, c4, c5⟩ := o
  cases cfgLoaded <;> cases c1 <;> cases c2 <;> cases c3 <;> cases c4 <;> cases c5 <;>
    refine ⟨?_, ?_, ?_, ?_, ?_⟩ <;>
    simp [sendEmail, sendEmailBody, sendEmailFresh, List.count_cons]

/-- C9 witness: with every transport step succeeding, the fresh-session path
performs exactly the canonical open-secure-authenticate-send-close sequence. -/
theorem claim_C9_witness :
    (sendEmail true "s@x.com" "r@x.com" ⟨true, true, true, true, true⟩ false).2
      = [SmtpEvent.connect smtp_server smtp_port, SmtpEvent.starttls,
         SmtpEvent.login "s@x.com", SmtpEvent.sendmail "r@x.com", SmtpEvent.close] :=
  (claim_C9 true "s@x.com" "r@x.com" ⟨true, true, true, true, true⟩).2.2.1 (by decide)

/-- C10: the bulk result mapping is keyed by recipient email, not by
directory name: a bulk certificate run dispatches one message per entry with
a resolvable email (so duplicates are each dispatched), while the result
mapping records one entry per distinct email; for two directory entries
resolving to the same non-empty email, two dispatches occur but the single
result entry carries the later dispatch's outcome, overwriting the earlier
one. -/
theorem claim_C10 (subject : String) (f : Nat → Bool)
    (recips : List (String × RecipientDetails)) :
    ((bulkCertificate subject true f recips).calls).length = countResolvable recips
    ∧ ∀ n1 n2 e, e ≠ "" →
        ((bulkCertificate subject true f
            [(n1, RecipientDetails.direct e), (n2, RecipientDetails.direct e)]).calls).length = 2
        ∧ (bulkCertificate subject true f
            [(n1, RecipientDetails.direct e), (n2, RecipientDetails.direct e)]).results
            = [(e, f 1)] := by
  constructor
  · have h := bulkFold_calls_emails (certCall subject) f (fun _ _ _ => rfl) recips initBulkState
    have h2 := congrArg List.length h
    simpa [bulkCertificate, initBulkState, countResolvable] using h2
  · intro n1 n2 e he
    have hres : resolvedEmail (RecipientDetails.direct e) = some e := by
      simp [resolvedEmail, entryEmail, he]
    constructor <;>
      simp [bulkCertificate, bulkLoopStep, hres, dictInsert, initBulkState]

/-- C10 witness: two entries sharing one email; the first send succeeds, the
second fails, and the single result entry records the second (failed)
outcome. -/
theorem claim_C10_witness :
    ((bulkCertificate "s" true (fun i => i == 0)
        [("A", RecipientDetails.direct "dup@x.com"),
         ("B", RecipientDetails.direct "dup@x.com")]).calls).length = 2
    ∧ (bulkCertificate "s" true (fun i => i == 0)
        [("A", RecipientDetails.direct "dup@x.com"),
         ("B", RecipientDetails.direct "dup@x.com")]).results
        = [("dup@x.com", false)] := by
  have h := (claim_C10 "s" (fun i => i == 0) []).2 "A" "B" "dup@x.com" (by decide)
  exact ⟨h.1, by simpa using h.2⟩

end EmailSenderModel
